import Mathlib

/-!
Verification of the training-platform core: the session lifecycle and
allocation model (`src/project/apps/workshops/models.py`,
`src/project/apps/workshops/views/environment.py`), the portal
reconciliation count derivation and TLS/URL resolution
(`operator/training_portal.py`), and the workshop-environment
reconciliation error handling
(`session-manager/handlers/workshopenvironment.py`).

Conventions of the embedding:
- timestamps and durations are integers (seconds); a Django
  `DurationField` value of `0` is falsy in Python, so guards of the form
  `if self.environment.duration:` become `duration ≠ 0`;
- nullable columns are `Option`; Python truthiness of an optional string
  (`None` and `""` are falsy) is `optTruthy`;
- a Django query set over `session_set` is a `List Session` held in
  creation order, so `sessions[0]` of a filter is the head of the
  filtered list (the oldest matching session);
- users and OAuth application records are identified by `Nat` ids.
-/

/-- Python truthiness of an optional string: `None` and `""` are falsy. -/
def optTruthy : Option String → Bool
  | none => false
  | some s => s ≠ ""

/-- `SessionState` from `models.py`: STARTING = 1, WAITING = 2, RUNNING = 3,
STOPPING = 4, STOPPED = 5. -/
inductive SessionState where
  | STARTING
  | WAITING
  | RUNNING
  | STOPPING
  | STOPPED
deriving DecidableEq, Repr

/-- The `Session` model from `models.py`: name (primary key), lifecycle
state, nullable owner, nullable application binding, timestamps, one-time
activation token. -/
structure Session where
  name : String
  state : SessionState
  owner : Option Nat
  application : Option Nat
  created : Option Int
  started : Option Int
  expires : Option Int
  token : Option String
deriving DecidableEq, Repr

/-- `Session.is_available` from `models.py`: owner is null and state is
STARTING or WAITING. -/
def is_available (s : Session) : Bool :=
  s.owner = none && (s.state = SessionState.STARTING || s.state = SessionState.WAITING)

/-- `Session.is_pending` from `models.py`: owner set (truthy) and state is
STARTING or WAITING. -/
def is_pending (s : Session) : Bool :=
  s.owner ≠ none && (s.state = SessionState.STARTING || s.state = SessionState.WAITING)

/-- `Session.is_allocated` from `models.py`: owner non-null and state not
STOPPED. -/
def is_allocated (s : Session) : Bool :=
  s.owner ≠ none && s.state ≠ SessionState.STOPPED

/-- `Session.mark_as_pending` from `models.py`: set the owner, stamp the
start time, keep an existing (truthy) token otherwise store the supplied
one; with a truthy token the expiry becomes a 60 second grace window,
otherwise with a non-zero environment duration it becomes start plus that
duration, otherwise it is left unchanged.  The state column is not
touched. -/
def mark_as_pending (s : Session) (user : Nat) (token : Option String)
    (now duration : Int) : Session :=
  let s1 := { s with
    owner := some user
    started := some now
    token := if optTruthy s.token then s.token else token }
  if optTruthy token then { s1 with expires := some (now + 60) }
  else if duration ≠ 0 then { s1 with expires := some (now + duration) }
  else s1

/-- `Session.mark_as_running` from `models.py`: owner becomes the supplied
user when one is given, otherwise it is kept; the state is set to RUNNING
unconditionally; the start time is stamped; the expiry is start plus the
environment duration when that is non-zero, otherwise cleared. -/
def mark_as_running (s : Session) (user : Option Nat) (now duration : Int) : Session :=
  { s with
    owner := match user with | some u => some u | none => s.owner
    state := SessionState.RUNNING
    started := some now
    expires := if duration ≠ 0 then some (now + duration) else none }

/-- `Session.mark_as_stopping` from `models.py`: the state is set to
STOPPING unconditionally and the expiry is pulled to now. -/
def mark_as_stopping (s : Session) (now : Int) : Session :=
  { s with state := SessionState.STOPPING, expires := some now }

/-- Result of `Session.mark_as_stopped`: the session record as saved, the
application record deleted (if any), and whether the final
`application.delete()` raised (`None` has no `delete` attribute). -/
structure StopResult where
  session : Session
  deleted : Option Nat
  raised : Bool
deriving DecidableEq, Repr

/-- `Session.mark_as_stopped` from `models.py`: remember the application
binding, set the state to STOPPED, pull the expiry to now, clear the
binding, save, then delete the remembered application record — which
raises when the binding was null, after the record was already saved. -/
def mark_as_stopped (s : Session) (now : Int) : StopResult :=
  let s1 := { s with
    state := SessionState.STOPPED
    expires := some now
    application := none }
  match s.application with
  | none => { session := s1, deleted := none, raised := true }
  | some a => { session := s1, deleted := some a, raised := false }

/-- `Session.extend_time_remaining` from `models.py`: when an expiry is
set and the state is RUNNING and the remaining time is positive but at
most `period`, push the expiry out by a fixed 300 seconds; otherwise do
nothing. -/
def extend_time_remaining (s : Session) (now : Int) (period : Int) : Session :=
  match s.expires with
  | none => s
  | some e =>
    if s.state = SessionState.RUNNING then
      if 0 < e - now ∧ e - now ≤ period then { s with expires := some (e + 300) }
      else s
    else s

/-- The non-STOPPED states, as listed in the query-set filters of
`Environment.allocated_session_for_user` and friends in `models.py`. -/
def activeState (st : SessionState) : Bool :=
  st = SessionState.STARTING || st = SessionState.WAITING ||
    st = SessionState.RUNNING || st = SessionState.STOPPING

/-- `Environment.available_sessions` from `models.py`: the sessions with
null owner in state STARTING or WAITING, in creation order. -/
def available_sessions (sessions : List Session) : List Session :=
  sessions.filter is_available

/-- `Environment.available_session` from `models.py`: the first available
session, or `None` when there is none. -/
def available_session (sessions : List Session) : Option Session :=
  (available_sessions sessions).head?

/-- `Environment.allocated_session_for_user` from `models.py`: the first
session whose state is in {STARTING, WAITING, RUNNING, STOPPING} and whose
owner is the given user. -/
def allocated_session_for_user (sessions : List Session) (user : Nat) : Option Session :=
  (sessions.filter (fun s => activeState s.state && s.owner = some user)).head?

/-- Replace the session with the given primary key by `s'` (the effect of
saving an updated record back to the session table). -/
def saveSession (sessions : List Session) (s' : Session) : List Session :=
  sessions.map (fun t => if t.name = s'.name then s' else t)

/-- Modelled from the spec: `retrieve_session_for_user` (module
`workshops/manager/sessions.py`, not among the embedded sources; only its
callers in `views/environment.py` are).  Per §4.2 of the specification:
if the requester already holds an active (non-STOPPED) session in the
environment, return it unchanged; otherwise take the oldest available
(owner-null, STARTING/WAITING) session and assign it — via the
`mark_as_pending` grace-window flow when an activation token is supplied,
otherwise via `mark_as_running` — or report no session available. -/
def retrieve_session_for_user (sessions : List Session) (user : Nat)
    (token : Option String) (now duration : Int) : Option Session × List Session :=
  match allocated_session_for_user sessions user with
  | some s => (some s, sessions)
  | none =>
    match available_session sessions with
    | none => (none, sessions)
    | some s =>
      let s' := if token.isSome then mark_as_pending s user token now duration
                else mark_as_running s (some user) now duration
      (some s', saveSession sessions s')

/-- Outcome of the REST allocation endpoint, as far as the allocation
step is concerned. -/
inductive RequestOutcome where
  | errorResponse (status : Nat) (msg : String)
  | success (sessionName : String)
deriving DecidableEq, Repr

/-- The allocation tail of `environment_request` from
`views/environment.py`: call `retrieve_session_for_user` with a fresh
token; when no session comes back answer immediately with the JSON error
response `No session available` and HTTP status 503, otherwise answer
with the session details. -/
def environment_request_allocate (sessions : List Session) (user : Nat)
    (token : String) (now duration : Int) : RequestOutcome × List Session :=
  match retrieve_session_for_user sessions user (some token) now duration with
  | (none, ss) => (RequestOutcome.errorResponse 503 "No session available", ss)
  | (some s, ss) => (RequestOutcome.success s.name, ss)

/-- One workshop entry of a training-portal spec
(`operator/training_portal.py`): optional capacity, reserved and initial
overrides. -/
structure WorkshopEntry where
  capacity : Option Int
  reserved : Option Int
  initial : Option Int
deriving DecidableEq, Repr

/-- The portal-level count configuration of a training-portal spec. -/
structure PortalSpec where
  sessions_maximum : Int
  capacity : Option Int
  reserved : Option Int
  initial : Option Int
deriving DecidableEq, Repr

/-- The resolved portal-level default counts. -/
structure PortalDefaults where
  capacity : Int
  reserved : Int
  initial : Int
deriving DecidableEq, Repr

/-- `training_portal.py` lines 283–287: `default_capacity` falls back to
`spec.portal.sessions.maximum` (itself defaulting to 0),
`default_reserved` falls back to 1, and `default_initial` falls back to
`default_reserved`. -/
def portalDefaults (p : PortalSpec) : PortalDefaults :=
  let dc := p.capacity.getD p.sessions_maximum
  let dr := p.reserved.getD 1
  let di := p.initial.getD dr
  { capacity := dc, reserved := dr, initial := di }

/-- `training_portal.py` lines 366–373, the pre-clamp count derivation for
one workshop entry: when the entry sets `capacity`, a missing `reserved`
defaults to the entry's capacity and a missing `initial` defaults to the
entry's reserved; only when the entry does not set `capacity` are all
three taken from the portal-level defaults. -/
def workshopCounts (w : WorkshopEntry) (d : PortalDefaults) : Int × Int × Int :=
  match w.capacity with
  | some cap => (cap, w.reserved.getD cap, w.initial.getD (w.reserved.getD cap))
  | none => (d.capacity, d.reserved, d.initial)

/-- Count derivation as the specification words it (for comparison with
`workshopCounts`): each of capacity, reserved and initial defaults from
the corresponding portal-level value whenever the workshop entry does not
set it itself. -/
def workshopCountsSpec (w : WorkshopEntry) (d : PortalDefaults) : Int × Int × Int :=
  (w.capacity.getD d.capacity, w.reserved.getD d.reserved, w.initial.getD d.initial)

/-- `training_portal.py` lines 375–380, the clamping step:
`capacity = max(0, capacity)`, `reserved = max(0, min(reserved,
capacity))`, `initial = max(0, min(initial, capacity))`, then `initial`
is raised to `reserved` when below it. -/
def clampCounts : Int × Int × Int → Int × Int × Int
  | (c, r, i) =>
    let c2 := max 0 c
    let r2 := max 0 (min r c2)
    let i2 := max 0 (min i c2)
    let i3 := if i2 < r2 then r2 else i2
    (c2, r2, i3)

/-- The effective counts for one workshop entry: derivation followed by
clamping. -/
def effectiveCounts (w : WorkshopEntry) (d : PortalDefaults) : Int × Int × Int :=
  clampCounts (workshopCounts w d)

/-- A secret as read from the system (`eduk8s`) namespace: its type and
its optional `tls.crt` / `tls.key` data entries. -/
structure SecretData where
  secretType : String
  crt : Option String
  key : Option String
deriving DecidableEq, Repr

/-- Errors raised by the TLS-secret resolution in `training_portal.py`
(both are `kopf.TemporaryError`, i.e. retryable). -/
inductive TLSError where
  | notAvailable
  | notValid
deriving DecidableEq, Repr

/-- `training_portal.py` lines 99 and 124–153: the ingress protocol
starts as `http`; when a TLS secret name is configured (truthy), the
secret must exist in the `eduk8s` namespace (else a retryable
not-available error), must be of type `kubernetes.io/tls` and must carry
truthy `tls.crt` and `tls.key` data (else a retryable not-valid error),
and only then does the protocol become `https`. -/
def resolveIngressProtocol (ingressSecret : String)
    (eduk8sSecrets : String → Option SecretData) : Except TLSError String :=
  if ingressSecret = "" then Except.ok "http"
  else
    match eduk8sSecrets ingressSecret with
    | none => Except.error TLSError.notAvailable
    | some inst =>
      if inst.secretType ≠ "kubernetes.io/tls" ∨ ¬ optTruthy inst.crt ∨ ¬ optTruthy inst.key
      then Except.error TLSError.notValid
      else Except.ok "https"

/-- Whether a configured TLS secret resolves and validates: it is named,
exists in the system namespace, is of TLS type and carries both
certificate and key data. -/
def validatedTLSSecret (ingressSecret : String)
    (eduk8sSecrets : String → Option SecretData) : Bool :=
  ingressSecret ≠ "" &&
    match eduk8sSecrets ingressSecret with
    | none => false
    | some inst =>
      inst.secretType = "kubernetes.io/tls" && optTruthy inst.crt && optTruthy inst.key

/-- `training_portal.py` line 869: the portal URL reported in status. -/
def portalUrl (protocol hostname : String) : String :=
  protocol ++ "://" ++ hostname

/-- Errors surfaced by reconciliation sub-steps in
`workshopenvironment.py`: a raw conflict (`PyKubeError` with code 409,
propagated) and a `kopf.TemporaryError` (retryable). -/
inductive K8sError where
  | conflict
  | temporaryError (msg : String)
deriving DecidableEq, Repr

/-- The cluster, as the keys (kind, namespace and name mangled into one
string) of the objects that exist. -/
abbrev Cluster := List String

/-- A `create()` call of the kubernetes client: raises a 409 conflict
when the object already exists, otherwise records it. -/
def createObject (key : String) (cluster : Cluster) : Except K8sError Cluster :=
  if key ∈ cluster then Except.error K8sError.conflict
  else Except.ok (key :: cluster)

/-- `workshopenvironment.py` lines 128–135: the namespace creation is the
one guarded create — a 409 is caught and re-raised as the retryable
`Namespace ... already exists.` error; any other error propagates. -/
def create_environment_namespace (ns : String) (cluster : Cluster) :
    Except K8sError Cluster :=
  match createObject ns cluster with
  | Except.error K8sError.conflict =>
      Except.error (K8sError.temporaryError ("Namespace " ++ ns ++ " already exists."))
  | r => r

/-- The best-effort cleanup sweep of `workshopenvironment.py` lines
143–163 (and the limit-range/resource-quota deletion in
`training_portal.py`): delete, treating `does not exist` as success. -/
def deleteIfExists (key : String) (cluster : Cluster) : Cluster :=
  cluster.erase key

/-- The unguarded provisioning sub-steps of `workshop_environment_create`
(`workshopenvironment.py`), run in source order over the cluster state:
the namespace pre-flight/creation, then the `workshop` config map (line
295), the web-console cluster role (line 334), the services service
account (line 739) and the services role binding (line 771) — none of the
latter four catches an `already exists` conflict. -/
def workshop_environment_create_objects (ns : String) (cluster : Cluster) :
    Except K8sError Cluster := do
  let c1 ← create_environment_namespace ns cluster
  let c2 ← createObject (ns ++ "/ConfigMap/workshop") c1
  let c3 ← createObject ("ClusterRole/eduk8s-web-console-" ++ ns) c2
  let c4 ← createObject (ns ++ "/ServiceAccount/eduk8s-services") c3
  let c5 ← createObject (ns ++ "/RoleBinding/eduk8s-services") c4
  return c5

/-- Modelled from the spec: the expiry sweep's anti-thrash guard (the
sweep itself is in `workshops/manager`, not among the embedded sources;
only `Session.extend_time_remaining` is).  Per §4.2 of the specification
the extension is attempted exactly when the session shows recent
activity, and the attempted extension is the source operation
`extend_time_remaining`. -/
def sweep_extend (s : Session) (now period : Int) (recentActivity : Bool) : Session :=
  if recentActivity then extend_time_remaining s now period else s

/-- Claim C1: for every workshop entry and whatever integer values are
given for capacity, reserved and initial (including out-of-range ones),
the effective counts computed during portal reconciliation satisfy
`0 ≤ reserved ≤ capacity` and `reserved ≤ initial ≤ capacity`; the
derivation is total (clamping, never rejection). -/
theorem effective_counts_clamped (w : WorkshopEntry) (d : PortalDefaults) :
    0 ≤ (effectiveCounts w d).2.1 ∧
    (effectiveCounts w d).2.1 ≤ (effectiveCounts w d).1 ∧
    (effectiveCounts w d).2.1 ≤ (effectiveCounts w d).2.2 ∧
    (effectiveCounts w d).2.2 ≤ (effectiveCounts w d).1 := by
  rcases hw : workshopCounts w d with ⟨c, r, i⟩
  simp only [effectiveCounts, hw, clampCounts]
  split_ifs <;> omega

/-- Claim C6 counterexample: a workshop entry that sets capacity 5 but
leaves reserved and initial unset gets reserved = initial = 5 (the
entry's own capacity), not the portal-level values reserved = 1 and
initial = 1 that the claim predicts, so the code disagrees with the
claim's per-field portal-level defaulting. -/
theorem counts_defaulting_cx :
    workshopCounts ⟨some 5, none, none⟩ ⟨3, 1, 1⟩ = (5, 5, 5) ∧
    workshopCountsSpec ⟨some 5, none, none⟩ ⟨3, 1, 1⟩ = (5, 1, 1) ∧
    workshopCounts ⟨some 5, none, none⟩ ⟨3, 1, 1⟩ ≠
      workshopCountsSpec ⟨some 5, none, none⟩ ⟨3, 1, 1⟩ := by
  decide

/-- Claim C6 (amended): before clamping, the three counts default from
the portal-level values only when the workshop entry does not set
capacity; when the entry sets capacity, the portal-level reserved and
initial are ignored — a missing reserved defaults to the entry's
capacity and a missing initial to the entry's reserved. -/
theorem counts_defaulting_characterized (w : WorkshopEntry) (d d' : PortalDefaults) :
    (w.capacity = none → workshopCounts w d = (d.capacity, d.reserved, d.initial)) ∧
    (w.capacity ≠ none →
      workshopCounts w d = workshopCounts w d' ∧
      workshopCounts w d =
        (w.capacity.getD 0, w.reserved.getD (w.capacity.getD 0),
          w.initial.getD (w.reserved.getD (w.capacity.getD 0)))) := by
  cases hc : w.capacity with
  | none => simp [workshopCounts, hc]
  | some cap => simp [workshopCounts, hc]

/-- Claim C6 witness: both branches of the amended characterization at
concrete inputs. -/
theorem counts_defaulting_characterized_witness :
    workshopCounts ⟨none, some 2, none⟩ ⟨3, 1, 4⟩ = (3, 1, 4) ∧
    workshopCounts ⟨some 5, none, none⟩ ⟨3, 1, 4⟩ = workshopCounts ⟨some 5, none, none⟩ ⟨9, 9, 9⟩ :=
  ⟨(counts_defaulting_characterized ⟨none, some 2, none⟩ ⟨3, 1, 4⟩ ⟨9, 9, 9⟩).1 rfl,
   ((counts_defaulting_characterized ⟨some 5, none, none⟩ ⟨3, 1, 4⟩ ⟨9, 9, 9⟩).2 (by decide)).1⟩

/-- A concrete STOPPED session with released application binding. -/
def stoppedSession : Session :=
  { name := "portal-w01-s001", state := SessionState.STOPPED, owner := some 7,
    application := none, created := some 0, started := some 10,
    expires := some 20, token := none }

/-- Claim C2 counterexample: STOPPED is not terminal under the raw
lifecycle operations — `mark_as_running` applied to a STOPPED session
yields a RUNNING session, and `mark_as_stopping` yields a STOPPING one,
because both set the state unconditionally. -/
theorem stopped_state_overwritten_cx :
    stoppedSession.state = SessionState.STOPPED ∧
    (mark_as_running stoppedSession none 100 0).state = SessionState.RUNNING ∧
    (mark_as_stopping stoppedSession 100).state = SessionState.STOPPING := by
  decide

/-- Claim C2 (amended): a STOPPED session is left STOPPED by
`mark_as_pending`, `extend_time_remaining` (which never change the state
column) and `mark_as_stopped`, but `mark_as_running` and
`mark_as_stopping` overwrite the state unconditionally — to RUNNING
resp. STOPPING — even on a STOPPED session; terminality of STOPPED (and
a STOPPING session never reverting to RUNNING) therefore rests on the
callers invoking those two operations only on non-STOPPED candidates. -/
theorem lifecycle_state_effects (s : Session) (u : Nat) (uo : Option Nat)
    (t : Option String) (now duration period : Int) :
    (mark_as_pending s u t now duration).state = s.state ∧
    (extend_time_remaining s now period).state = s.state ∧
    (mark_as_stopped s now).session.state = SessionState.STOPPED ∧
    (mark_as_running s uo now duration).state = SessionState.RUNNING ∧
    (mark_as_stopping s now).state = SessionState.STOPPING := by
  refine ⟨?_, ?_, ?_, rfl, rfl⟩
  · unfold mark_as_pending
    split_ifs <;> rfl
  · unfold extend_time_remaining
    rcases s.expires with _ | e
    · rfl
    · dsimp only
      split_ifs <;> rfl
  · unfold mark_as_stopped
    rcases s.application with _ | a <;> rfl

/-- A concrete unowned STARTING session (an available pool member). -/
def startingSession : Session :=
  { name := "portal-w01-s002", state := SessionState.STARTING, owner := none,
    application := none, created := some 0, started := none,
    expires := none, token := none }

/-- The state–owner correspondence asserted by claim C7: STARTING/WAITING
implies no owner, RUNNING/STOPPING implies an owner. -/
def stateOwnerCorrespondence (s : Session) : Prop :=
  ((s.state = SessionState.STARTING ∨ s.state = SessionState.WAITING) → s.owner = none) ∧
  ((s.state = SessionState.RUNNING ∨ s.state = SessionState.STOPPING) → s.owner ≠ none)

instance (s : Session) : Decidable (stateOwnerCorrespondence s) := by
  unfold stateOwnerCorrespondence
  infer_instance

/-- Claim C7 counterexample: `mark_as_pending` assigns an owner while
leaving the state column untouched, so it turns an available STARTING
session (which satisfies the claimed correspondence) into an owned
STARTING session (which violates it). -/
theorem pending_breaks_correspondence_cx :
    stateOwnerCorrespondence startingSession ∧
    (mark_as_pending startingSession 7 none 100 0).state = SessionState.STARTING ∧
    (mark_as_pending startingSession 7 none 100 0).owner = some 7 ∧
    ¬ stateOwnerCorrespondence (mark_as_pending startingSession 7 none 100 0) := by
  decide

/-- Claim C7 (amended): owner-null STARTING/WAITING sessions are the
unassigned pool members, but the state–owner correspondence is not
preserved by every lifecycle operation: `mark_as_pending` sets a non-null
owner and leaves the state unchanged, yielding a pending (owned
STARTING/WAITING) session that is no longer available; `mark_as_running`
with a user yields an assigned RUNNING session; `mark_as_stopping` keeps
the owner, preserving assignment of RUNNING sessions moved to
STOPPING. -/
theorem ownership_effects (s : Session) (u : Nat) (t : Option String)
    (now duration : Int) :
    ((mark_as_pending s u t now duration).owner = some u ∧
      (mark_as_pending s u t now duration).state = s.state ∧
      is_available (mark_as_pending s u t now duration) = false ∧
      is_pending (mark_as_pending s u t now duration) =
        (s.state = SessionState.STARTING || s.state = SessionState.WAITING)) ∧
    ((mark_as_running s (some u) now duration).owner = some u ∧
      (mark_as_running s (some u) now duration).state = SessionState.RUNNING) ∧
    ((mark_as_stopping s now).owner = s.owner) := by
  have howner : (mark_as_pending s u t now duration).owner = some u := by
    unfold mark_as_pending
    split_ifs <;> rfl
  have hstate : (mark_as_pending s u t now duration).state = s.state := by
    unfold mark_as_pending
    split_ifs <;> rfl
  refine ⟨⟨howner, hstate, ?_, ?_⟩, ⟨rfl, rfl⟩, rfl⟩
  · simp [is_available, howner]
  · simp [is_pending, howner, hstate]

/-- A concrete STOPPING session with a bound application record. -/
def boundSession : Session :=
  { name := "portal-w01-s003", state := SessionState.STOPPING, owner := some 4,
    application := some 3, created := some 0, started := some 10,
    expires := some 40, token := none }

/-- A concrete STOPPING session with no application binding. -/
def unboundSession : Session :=
  { name := "portal-w01-s004", state := SessionState.STOPPING, owner := some 5,
    application := none, created := some 0, started := some 10,
    expires := some 40, token := none }

/-- Claim C10: `mark_as_stopped` always clears the application binding on
the saved record and raises exactly when the binding was null; when an
application is bound it sets the state to STOPPED, pulls the expiry to
now, clears the binding and deletes the bound application record. -/
theorem mark_as_stopped_behaviour (s : Session) (now : Int) :
    (mark_as_stopped s now).session.application = none ∧
    (s.application = none → (mark_as_stopped s now).raised = true) ∧
    (∀ a, s.application = some a →
      (mark_as_stopped s now).raised = false ∧
      (mark_as_stopped s now).session.state = SessionState.STOPPED ∧
      (mark_as_stopped s now).session.expires = some now ∧
      (mark_as_stopped s now).deleted = some a) := by
  rcases happ : s.application with _ | a <;>
    simp [mark_as_stopped, happ]

/-- Claim C10 witness: the bound branch deletes application 3 without
raising; the unbound branch raises. -/
theorem mark_as_stopped_behaviour_witness :
    (mark_as_stopped boundSession 50).raised = false ∧
    (mark_as_stopped boundSession 50).deleted = some 3 ∧
    (mark_as_stopped unboundSession 50).raised = true :=
  ⟨((mark_as_stopped_behaviour boundSession 50).2.2 3 rfl).1,
   ((mark_as_stopped_behaviour boundSession 50).2.2 3 rfl).2.2.2,
   (mark_as_stopped_behaviour unboundSession 50).2.1 rfl⟩

/-- Claim C8: the expiry extension happens — by the fixed 300 second
increment — exactly when the session shows recent activity (the guard of
the sweep, modelled from the spec) and has an expiry set and is RUNNING
and its remaining time is positive but at most the low-water mark
`period`; in every other situation (no recent activity, no expiry set,
not RUNNING, already expired, or remaining time above the mark) the
session, and in particular its expiry, is left unchanged. -/
theorem extension_guard_spec (s : Session) (now period : Int) (act : Bool) (e : Int) :
    (act = true → s.expires = some e → s.state = SessionState.RUNNING →
      0 < e - now → e - now ≤ period →
      sweep_extend s now period act = { s with expires := some (e + 300) }) ∧
    (act = false → sweep_extend s now period act = s) ∧
    (s.expires = none → sweep_extend s now period act = s) ∧
    (s.state ≠ SessionState.RUNNING → sweep_extend s now period act = s) ∧
    (s.expires = some e → e - now ≤ 0 → sweep_extend s now period act = s) ∧
    (s.expires = some e → period < e - now → sweep_extend s now period act = s) := by
  refine ⟨?_, ?_, ?_, ?_, ?_, ?_⟩
  · intro ha he hr h1 h2
    simp only [sweep_extend, ha, if_true, extend_time_remaining, he, hr, if_true]
    rw [if_pos ⟨h1, h2⟩]
  · intro ha
    simp [sweep_extend, ha]
  · intro he
    cases act <;> simp [sweep_extend, extend_time_remaining, he]
  · intro hr
    cases act
    · simp [sweep_extend]
    · rcases hse : s.expires with _ | v <;>
        simp [sweep_extend, extend_time_remaining, hse, hr]
  · intro he h1
    cases act <;> simp [sweep_extend, extend_time_remaining, he]
    intro h
    omega
  · intro he h2
    cases act <;> simp [sweep_extend, extend_time_remaining, he]
    intro h
    omega

/-- A concrete RUNNING session owned by user 1 whose expiry is near. -/
def runningSession : Session :=
  { name := "portal-w01-s005", state := SessionState.RUNNING, owner := some 1,
    application := some 9, created := some 0, started := some 10,
    expires := some 200, token := some "tok123" }

/-- Claim C8 witness: an active RUNNING session with 200 seconds left
against a 300 second mark is extended by exactly 300 seconds; without
recent activity it is untouched. -/
theorem extension_guard_spec_witness :
    sweep_extend runningSession 0 300 true = { runningSession with expires := some 500 } ∧
    sweep_extend runningSession 0 300 false = runningSession :=
  ⟨(extension_guard_spec runningSession 0 300 true 200).1 rfl rfl rfl (by decide) (by decide),
   (extension_guard_spec runningSession 0 300 false 200).2.1 rfl⟩

/-- The head of a filtered list is the first element of the original list
satisfying the predicate: everything before it in the original order
fails the predicate. -/
theorem head_of_filter {α : Type} (p : α → Bool) :
    ∀ (xs : List α) (y : α), (xs.filter p).head? = some y →
      p y = true ∧ ∃ pre post, xs = pre ++ y :: post ∧ ∀ z ∈ pre, p z = false := by
  intro xs
  induction xs with
  | nil =>
    intro y h
    simp at h
  | cons x xs ih =>
    intro y h
    by_cases hp : p x = true
    · rw [List.filter_cons, if_pos hp] at h
      simp only [List.head?_cons, Option.some.injEq] at h
      subst h
      exact ⟨hp, [], xs, rfl, by simp⟩
    · rw [List.filter_cons, if_neg hp] at h
      obtain ⟨hy, pre, post, hxs, hpre⟩ := ih y h
      refine ⟨hy, x :: pre, post, by rw [hxs]; rfl, ?_⟩
      intro z hz
      rcases List.mem_cons.mp hz with rfl | hz'
      · simpa using hp
      · exact hpre z hz'

/-- Saving an updated session does not change its primary key:
`mark_as_pending` leaves `name` untouched. -/
theorem mark_as_pending_name (s : Session) (u : Nat) (t : Option String)
    (now duration : Int) : (mark_as_pending s u t now duration).name = s.name := by
  unfold mark_as_pending
  split_ifs <;> rfl

/-- Claim C3: a requester who already holds an active (non-STOPPED,
owner = requester) session in the environment gets that identical session
back from a repeated allocation call, with the session table left
unchanged. -/
theorem repeated_allocation_idempotent (sessions : List Session) (user : Nat)
    (token : Option String) (now duration : Int) (s : Session)
    (h : allocated_session_for_user sessions user = some s) :
    retrieve_session_for_user sessions user token now duration = (some s, sessions) := by
  simp [retrieve_session_for_user, h]

/-- A WAITING unowned session, created after `runningSession`. -/
def waitingA : Session :=
  { name := "portal-w01-s006", state := SessionState.WAITING, owner := none,
    application := none, created := some 1, started := none,
    expires := none, token := none }

/-- A STARTING unowned session, created after `waitingA`. -/
def startingB : Session :=
  { name := "portal-w01-s007", state := SessionState.STARTING, owner := none,
    application := none, created := some 2, started := none,
    expires := none, token := none }

/-- A session pool in creation order: an owned RUNNING session, then two
available ones. -/
def poolSessions : List Session :=
  [runningSession, waitingA, startingB]

/-- Claim C3 witness: user 1 already owns the RUNNING session of the
pool, and a repeated allocation call returns exactly it, leaving the pool
untouched. -/
theorem repeated_allocation_idempotent_witness :
    retrieve_session_for_user poolSessions 1 none 0 600 = (some runningSession, poolSessions) :=
  repeated_allocation_idempotent poolSessions 1 none 0 600 runningSession (by decide)

/-- Claim C4: when the requester holds no active session in the
environment, allocation selects the oldest available (owner-null,
STARTING/WAITING) session — the first such session in creation order —
and when none exists the REST endpoint answers immediately with the
error response `No session available` and status 503 (the function is
total: it never blocks or queues). -/
theorem allocation_selects_oldest_or_errors (sessions : List Session) (user : Nat)
    (token : String) (now duration : Int)
    (h : allocated_session_for_user sessions user = none) :
    (available_session sessions = none →
      environment_request_allocate sessions user token now duration =
        (RequestOutcome.errorResponse 503 "No session available", sessions)) ∧
    (∀ s, available_session sessions = some s →
      is_available s = true ∧
      (∃ pre post, sessions = pre ++ s :: post ∧ ∀ z ∈ pre, is_available z = false) ∧
      (environment_request_allocate sessions user token now duration).1 =
        RequestOutcome.success s.name) := by
  constructor
  · intro hav
    simp [environment_request_allocate, retrieve_session_for_user, h, hav]
  · intro s hav
    obtain ⟨hs, pre, post, hsplit, hpre⟩ :=
      head_of_filter is_available sessions s
        (by simpa [available_session, available_sessions] using hav)
    refine ⟨hs, ⟨pre, post, hsplit, hpre⟩, ?_⟩
    simp [environment_request_allocate, retrieve_session_for_user, h, hav,
      mark_as_pending_name]

/-- Claim C4 witness: user 9 holds nothing; against the pool the oldest
available session (the WAITING one ahead of the STARTING one) is
allocated, and against an empty pool the endpoint reports 503
immediately. -/
theorem allocation_selects_oldest_or_errors_witness :
    (environment_request_allocate poolSessions 9 "tok" 0 600).1 =
      RequestOutcome.success "portal-w01-s006" ∧
    environment_request_allocate [] 9 "tok" 0 600 =
      (RequestOutcome.errorResponse 503 "No session available", []) :=
  ⟨((allocation_selects_oldest_or_errors poolSessions 9 "tok" 0 600
      (by decide)).2 waitingA (by decide)).2.2,
   (allocation_selects_oldest_or_errors [] 9 "tok" 0 600 (by decide)).1 (by decide)⟩

/-- Claim C5 counterexample: re-running reconciliation against a state in
which the `workshop` config map already exists (but the namespace does
not) fails with the propagated 409 conflict — the "already exists"
outcome on that sub-step is a failure of the pass, not success. -/
theorem substep_conflict_not_success_cx :
    workshop_environment_create_objects "portal-w01"
      ["portal-w01/ConfigMap/workshop"] = Except.error K8sError.conflict := by
  rfl

/-- Claim C5 (amended): no provisioning sub-step tolerates "already
exists" — a 409 on the config map (or any later bare create) propagates
as a failure of the reconciliation pass; the namespace creation turns its
409 into the retryable `Namespace ... already exists.` error, refusing
any pre-existing namespace (including one left by an earlier attempt of
the same reconciliation); the errors silently treated as success are the
"does not exist" outcomes of the best-effort cleanup sweeps. -/
theorem reconciliation_error_tolerance (ns : String) (cluster : Cluster) :
    (ns ∈ cluster → workshop_environment_create_objects ns cluster =
      Except.error (K8sError.temporaryError ("Namespace " ++ ns ++ " already exists."))) ∧
    (ns ∉ cluster → (ns ++ "/ConfigMap/workshop") ∈ cluster →
      workshop_environment_create_objects ns cluster = Except.error K8sError.conflict) ∧
    (∀ key, key ∉ cluster → deleteIfExists key cluster = cluster) := by
  refine ⟨?_, ?_, ?_⟩
  · intro hns
    simp only [workshop_environment_create_objects, create_environment_namespace,
      createObject, hns, if_true, Bind.bind, Except.bind]
  · intro hns hcm
    have h1 : (ns ++ "/ConfigMap/workshop") ∈ ns :: cluster :=
      List.mem_cons_of_mem _ hcm
    simp only [workshop_environment_create_objects, create_environment_namespace,
      createObject, hns, h1, if_true, if_false, Bind.bind, Except.bind]
  · intro key hkey
    exact List.erase_of_not_mem hkey

/-- Claim C5 witness: the three error-handling behaviours at concrete
cluster states — pre-existing namespace refused with the retryable
error, pre-existing config map failing with a conflict, and cleanup of
an absent object succeeding. -/
theorem reconciliation_error_tolerance_witness :
    workshop_environment_create_objects "portal-w01" ["portal-w01"] =
      Except.error (K8sError.temporaryError "Namespace portal-w01 already exists.") ∧
    workshop_environment_create_objects "portal-w02"
      ["portal-w02/ConfigMap/workshop"] = Except.error K8sError.conflict ∧
    deleteIfExists "portal-w03/LimitRange/default" [] = [] :=
  ⟨(reconciliation_error_tolerance "portal-w01" ["portal-w01"]).1 (by decide),
   ((reconciliation_error_tolerance "portal-w02" ["portal-w02/ConfigMap/workshop"]).2.1
      (by decide) (by decide)),
   (reconciliation_error_tolerance "portal-w03" []).2.2 "portal-w03/LimitRange/default"
      (by decide)⟩

/-- Claim C9: whenever portal reconciliation reports a URL, its scheme is
`https` exactly when the configured TLS secret resolved and validated
(named, present in the system namespace, of TLS type, with certificate
and key data), and `http` in every other reported case; the reported URL
is the scheme joined to the portal hostname. -/
theorem portal_url_scheme (secret hostname : String)
    (store : String → Option SecretData) (protocol : String)
    (h : resolveIngressProtocol secret store = Except.ok protocol) :
    (protocol = "https" ↔ validatedTLSSecret secret store = true) ∧
    (protocol ≠ "https" → protocol = "http") ∧
    portalUrl protocol hostname = protocol ++ "://" ++ hostname := by
  unfold resolveIngressProtocol at h
  by_cases hsec : secret = ""
  · rw [if_pos hsec] at h
    simp only [Except.ok.injEq] at h
    subst h
    refine ⟨?_, fun _ => rfl, rfl⟩
    simp [validatedTLSSecret, hsec]
  · rw [if_neg hsec] at h
    rcases hstore : store secret with _ | inst
    · rw [hstore] at h
      simp at h
    · rw [hstore] at h
      have h2 : (if inst.secretType ≠ "kubernetes.io/tls" ∨ ¬ optTruthy inst.crt ∨
            ¬ optTruthy inst.key then Except.error TLSError.notValid
          else Except.ok "https") = Except.ok protocol := h
      by_cases hvalid : inst.secretType ≠ "kubernetes.io/tls" ∨
          ¬ optTruthy inst.crt ∨ ¬ optTruthy inst.key
      · rw [if_pos hvalid] at h2
        simp at h2
      · rw [if_neg hvalid] at h2
        simp only [Except.ok.injEq] at h2
        subst h2
        push_neg at hvalid
        obtain ⟨htype, hcrt, hkey⟩ := hvalid
        refine ⟨?_, fun hne => absurd rfl hne, rfl⟩
        simp [validatedTLSSecret, hsec, hstore, htype, hcrt, hkey]

/-- A concrete secret store for the system namespace: one valid TLS
secret. -/
def demoSecretStore : String → Option SecretData :=
  fun n =>
    if n = "portal-tls" then
      some { secretType := "kubernetes.io/tls", crt := some "certdata", key := some "keydata" }
    else none

/-- Claim C9 witness: with the valid TLS secret configured the resolved
protocol `https` witnesses validation; with no secret configured the
resolved protocol is `http` and the reported URL is the `http` URL. -/
theorem portal_url_scheme_witness :
    validatedTLSSecret "portal-tls" demoSecretStore = true ∧
    portalUrl "http" "portal-ui.example.com" = "http" ++ "://" ++ "portal-ui.example.com" :=
  ⟨(portal_url_scheme "portal-tls" "portal-ui.example.com" demoSecretStore "https"
      (by rfl)).1.mp rfl,
   (portal_url_scheme "" "portal-ui.example.com" demoSecretStore "http" (by rfl)).2.2⟩
